import Mathlib

/-!
Verification of the event-registration lifecycle and rating aggregation of
the LiftupLabs backend (an Express/Mongoose events-and-notes platform).

The definitions below are a shallow embedding of:
  * `src/models/Event.js` — the `canUserRegister`, `registerUser` and
    `unregisterUser` methods of the Event schema;
  * the event route handlers (`POST /api/events/:id/register`,
    `DELETE /api/events/:id/register`, `POST /api/events/:id/admin-register`,
    `PUT /api/events/:id/participants/:participantId/status`,
    `GET /api/events/:id`);
  * `src/routes/notes.js` — the `POST /api/notes/:id/rate` handler.

Timestamps are modelled as integers (milliseconds since epoch); Mongo object
ids as naturals; participant statuses as the strings stored in the document.
Schema fields never touched by the registration subsystem (images, prizes,
tags, ...) are omitted: they flow through every modelled operation unchanged.
-/

/-- One entry of `Event.participants` (a Mongoose subdocument).
`pid` models the subdocument `_id` assigned by the store; `user` is the
referenced user id. Fields mirror the object pushed by `registerUser`. -/
structure Participant where
  pid : Nat
  user : Nat
  phone : Option String
  alternateEmail : Option String
  teamName : Option String
  teamSize : Nat
  teamMembers : List String
  institution : Option String
  experience : Option String
  motivation : Option String
  specialRequirements : Option String
  registeredAt : Int
  status : String
  deriving DecidableEq, Repr

/-- The `registration` subobject of the Event schema (the fields the
registration subsystem reads or writes). -/
structure Registration where
  deadline : Int
  maxParticipants : Option Int
  currentParticipants : Int
  deriving DecidableEq, Repr

/-- The Event document, restricted to the fields the registration
subsystem touches. `organizer` is `organizer.user`. -/
structure Event where
  id : Nat
  organizer : Nat
  title : String
  registration : Registration
  participants : List Participant
  views : Nat
  deriving DecidableEq, Repr

/-- The optional registration form (`req.body`) accepted by `registerUser`. -/
structure RegistrationData where
  phone : Option String := none
  alternateEmail : Option String := none
  teamName : Option String := none
  teamSize : Option Nat := none
  teamMembers : Option (List String) := none
  institution : Option String := none
  experience : Option String := none
  motivation : Option String := none
  specialRequirements : Option String := none
  deriving DecidableEq, Repr

/-- The empty form: `registerUser(userId)` called with no second argument
(defaulted to `{}`), as in the admin-register handler. -/
def emptyRegistrationData : RegistrationData := {}

/-- Result of `canUserRegister`: `{canRegister: bool, reason?: string}`. -/
structure CanRegisterResult where
  canRegister : Bool
  reason : Option String
  deriving DecidableEq, Repr

/-- `eventSchema.methods.canUserRegister` (src/models/Event.js).
`now` is `new Date()` at call time.  The source refuses when
`now > this.registration.deadline`, then when the user already appears in
`participants`; the max-participants check is removed in the source. -/
def canUserRegister (e : Event) (now : Int) (userId : Nat) : CanRegisterResult :=
  if e.registration.deadline < now then
    ⟨false, some ("Registration deadline has passed")⟩
  else if e.participants.any (fun p => p.user == userId) then
    ⟨false, some ("Already registered")⟩
  else
    ⟨true, none⟩

/-- The Participant object literal pushed by `registerUser`: status is
hard-coded to `registered`, `registeredAt` to the current time, `teamSize`
defaults to 1 and `teamMembers` to `[]`. -/
def mkParticipant (pid : Nat) (userId : Nat) (rd : RegistrationData)
    (now : Int) : Participant :=
  { pid := pid
    user := userId
    phone := rd.phone
    alternateEmail := rd.alternateEmail
    teamName := rd.teamName
    teamSize := rd.teamSize.getD 1
    teamMembers := rd.teamMembers.getD []
    institution := rd.institution
    experience := rd.experience
    motivation := rd.motivation
    specialRequirements := rd.specialRequirements
    registeredAt := now
    status := "registered" }

/-- `eventSchema.methods.registerUser`: pushes the new participant and
increments `registration.currentParticipants` by 1 unconditionally. -/
def registerUser (e : Event) (userId : Nat) (rd : RegistrationData)
    (now : Int) (pid : Nat) : Event :=
  { e with
      participants := e.participants ++ [mkParticipant pid userId rd now]
      registration :=
        { e.registration with
            currentParticipants := e.registration.currentParticipants + 1 } }

/-- `eventSchema.methods.unregisterUser`: keeps every participant whose
user id differs from `userId` and sets the counter to
`Math.max(0, currentParticipants - 1)`. -/
def unregisterUser (e : Event) (userId : Nat) : Event :=
  { e with
      participants := e.participants.filter (fun p => !(p.user == userId))
      registration :=
        { e.registration with
            currentParticipants :=
              max 0 (e.registration.currentParticipants - 1) } }

/-- One entry of a User document's `registeredEvents` mirror list. -/
structure RegisteredEvent where
  event : Nat
  status : String
  deriving DecidableEq, Repr

/-- The User document, restricted to the fields the registration subsystem
touches. -/
structure UserRec where
  id : Nat
  role : String
  registeredEvents : List RegisteredEvent
  deriving DecidableEq, Repr

/-- `POST /api/events/:id/register`: runs `canUserRegister`; on refusal
responds 400 with the reason; otherwise calls `registerUser` with the
request body and pushes `{event, status: registered}` onto the caller's
`registeredEvents`. `u` is the authenticated caller, `pid` the store-assigned
subdocument id. -/
def registerHandler (e : Event) (u : UserRec) (rd : RegistrationData)
    (now : Int) (pid : Nat) : Except String (Event × UserRec) :=
  let c := canUserRegister e now u.id
  if c.canRegister then
    Except.ok
      (registerUser e u.id rd now pid,
       { u with registeredEvents :=
           u.registeredEvents ++ [⟨e.id, "registered"⟩] })
  else
    Except.error (c.reason.getD (""))

/-- `DELETE /api/events/:id/register`: fails 400 if the caller does not
appear in `participants`; otherwise calls `unregisterUser` and pulls the
matching entries from the caller's `registeredEvents`. -/
def unregisterHandler (e : Event) (u : UserRec) :
    Except String (Event × UserRec) :=
  if e.participants.any (fun p => p.user == u.id) then
    Except.ok
      (unregisterUser e u.id,
       { u with registeredEvents :=
           u.registeredEvents.filter (fun r => !(r.event == e.id)) })
  else
    Except.error ("You are not registered for this event")

/-- `POST /api/events/:id/admin-register`: after the event and target user
are found, checks only whether the target already appears in
`participants` (no `canUserRegister` call, hence no deadline rule); on
success calls `registerUser(userId)` with the defaulted empty form and
pushes a mirror entry with status `confirmed`. -/
def adminRegisterHandler (e : Event) (u : UserRec) (now : Int) (pid : Nat) :
    Except String (Event × UserRec) :=
  if e.participants.any (fun p => p.user == u.id) then
    Except.error ("User is already registered for this event")
  else
    Except.ok
      (registerUser e u.id emptyRegistrationData now pid,
       { u with registeredEvents :=
           u.registeredEvents ++ [⟨e.id, "confirmed"⟩] })

/-- The status values accepted by the participant-status route. -/
def validStatuses : List String :=
  ["registered", "confirmed", "attended", "cancelled"]

/-- `event.participants.id(participantId)` followed by
`participant.status = status`: overwrites the status of the first
subdocument whose `_id` matches, leaving every other entry untouched. -/
def setStatusByPid : List Participant → Nat → String → List Participant
  | [], _, _ => []
  | p :: ps, pid, s =>
      if p.pid == pid then { p with status := s } :: ps
      else p :: setStatusByPid ps pid s

/-- `PUT /api/events/:id/participants/:participantId/status`: rejects a
status outside `validStatuses`, then requires the requester to be the
organizer, then looks the participant up by its own subdocument id
(`participants.id(participantId)`, not by user id) and overwrites its
status in place with no transition restriction. -/
def updateParticipantStatus (e : Event) (requesterId : Nat)
    (participantId : Nat) (status : String) : Except String Event :=
  if !(validStatuses.contains status) then
    Except.error ("Invalid status. Must be one of: registered, confirmed, attended, cancelled")
  else if !(e.organizer == requesterId) then
    Except.error ("Access denied. Only event organizer can update participant status.")
  else if e.participants.any (fun p => p.pid == participantId) then
    Except.ok
      { e with participants := setStatusByPid e.participants participantId status }
  else
    Except.error ("Participant not found")

/-- The serialized event object (`eventObj`) produced by
`GET /api/events/:id`: either the populated `participants` list or, for a
non-privileged viewer, only `participantCount`. -/
structure EventView where
  id : Nat
  organizer : Nat
  title : String
  registration : Registration
  views : Nat
  participants : Option (List Participant)
  participantCount : Option Nat
  deriving DecidableEq, Repr

/-- The authenticated viewer of `GET /api/events/:id` (`req.user`), when
present. -/
structure Viewer where
  id : Nat
  role : String
  deriving DecidableEq, Repr

/-- `GET /api/events/:id` serialization: the view count is incremented on
every read; a viewer who is the organizer or an admin gets the full
`participants` list, anyone else gets `participantCount = participants.length`
and the `participants` key deleted. -/
def present (e : Event) (viewer : Option Viewer) : EventView :=
  let isOrganizer :=
    match viewer with
    | some v => e.organizer == v.id
    | none => false
  let isAdmin :=
    match viewer with
    | some v => v.role == "admin"
    | none => false
  if isOrganizer || isAdmin then
    { id := e.id, organizer := e.organizer, title := e.title
      registration := e.registration, views := e.views + 1
      participants := some e.participants, participantCount := none }
  else
    { id := e.id, organizer := e.organizer, title := e.title
      registration := e.registration, views := e.views + 1
      participants := none
      participantCount := some e.participants.length }

/-- One row of the `note_ratings` table for a fixed note. -/
structure NoteRating where
  userId : Nat
  rating : Nat
  deriving DecidableEq, Repr

/-- The `notes` row fields maintained by the rating route, together with
the note's rows of `note_ratings`. -/
structure NoteState where
  ratings : List NoteRating
  rating : ℚ
  ratingCount : Nat
  deriving DecidableEq, Repr

/-- The supabase upsert with `onConflict: note_id,user_id`: replaces the
row for an existing rater, otherwise inserts a new row. -/
def upsertRating (rs : List NoteRating) (uid : Nat) (v : Nat) :
    List NoteRating :=
  if rs.any (fun r => r.userId == uid) then
    rs.map (fun r => if r.userId == uid then { r with rating := v } else r)
  else
    rs ++ [⟨uid, v⟩]

/-- JavaScript `Math.round` on a (non-negative here) rational:
round half towards positive infinity. -/
def jsRound (q : ℚ) : ℤ := Rat.floor (q + 1 / 2)

/-- `ratings.reduce((sum, r) => sum + r.rating, 0)` from the rate handler. -/
def sumRatings (rs : List NoteRating) : ℚ :=
  rs.foldl (fun s r => s + (r.rating : ℚ)) 0

/-- `avgRating` of the rate handler: sum divided by count. -/
def avgRating (rs : List NoteRating) : ℚ :=
  sumRatings rs / (rs.length : ℚ)

/-- `POST /api/notes/:id/rate` (src/routes/notes.js): upserts the
(note, user) rating, then recomputes `rating = Math.round(avg * 10) / 10`
and `rating_count = ratings.length` from the full current set. -/
def recordRating (n : NoteState) (uid : Nat) (v : Nat) : NoteState :=
  let rs := upsertRating n.ratings uid v
  { ratings := rs
    rating := (jsRound (avgRating rs * 10) : ℚ) / 10
    ratingCount := rs.length }

/-! ### Helper lemmas -/

/-- `Rat.floor` agrees with the `Int.floor` of the order structure. -/
theorem ratFloor_eq_intFloor (q : ℚ) : q.floor = ⌊q⌋ :=
  (Rat.floor_def' q).trans Rat.floor_def.symm

/-- `jsRound` as an `Int.floor`, the form `norm_num` can evaluate. -/
theorem jsRound_eq (q : ℚ) : jsRound q = ⌊q + 1 / 2⌋ := by
  rw [jsRound, ratFloor_eq_intFloor]

/-- Removing the entries of one user splits the length of a participant
list. -/
theorem length_filter_user (l : List Participant) (uid : Nat) :
    (l.filter (fun p => !(p.user == uid))).length
      + l.countP (fun p => p.user == uid) = l.length := by
  induction l with
  | nil => simp
  | cons a l ih =>
      cases hb : a.user == uid <;>
        (simp [List.filter_cons, List.countP_cons, hb]; omega)

/-- After filtering a user out, no entry of that user remains. -/
theorem any_user_filter (l : List Participant) (uid : Nat) :
    ((l.filter (fun p => !(p.user == uid))).any
      (fun p => p.user == uid)) = false := by
  induction l with
  | nil => simp
  | cons a l ih =>
      cases hb : a.user == uid <;> simp [List.filter_cons, hb, ih]

/-- `setStatusByPid` never changes the length of the list. -/
theorem length_setStatusByPid (l : List Participant) (pid : Nat) (s : String) :
    (setStatusByPid l pid s).length = l.length := by
  induction l with
  | nil => rfl
  | cons a l ih =>
      cases hb : a.pid == pid <;> simp [setStatusByPid, hb, ih]

/-- `setStatusByPid` rewrites the status of the first matching entry. -/
theorem find?_setStatusByPid (l : List Participant) (pid : Nat) (s : String) :
    (setStatusByPid l pid s).find? (fun p => p.pid == pid)
      = (l.find? (fun p => p.pid == pid)).map
          (fun p => { p with status := s }) := by
  induction l with
  | nil => rfl
  | cons a l ih =>
      cases hb : a.pid == pid
      · simp [setStatusByPid, List.find?_cons, hb, ih]
      · simp [setStatusByPid, List.find?_cons, hb]

/-- `setStatusByPid` leaves every entry of a different subdocument id
untouched. -/
theorem filter_ne_setStatusByPid (l : List Participant) (pid : Nat)
    (s : String) :
    (setStatusByPid l pid s).filter (fun p => !(p.pid == pid))
      = l.filter (fun p => !(p.pid == pid)) := by
  induction l with
  | nil => rfl
  | cons a l ih =>
      cases hb : a.pid == pid <;> simp [setStatusByPid, List.filter_cons, hb, ih]

/-- The only `ok` outcome of the status route: the event with the one
participant rewritten. -/
theorem updateParticipantStatus_ok (e : Event) (req pid : Nat) (s : String)
    (e₂ : Event) (h : updateParticipantStatus e req pid s = Except.ok e₂) :
    e₂ = { e with participants := setStatusByPid e.participants pid s } := by
  unfold updateParticipantStatus at h
  split_ifs at h
  all_goals simp_all

/-! ### Concrete documents used by the witnesses -/

/-- A participant record for user 7 (subdocument id 1, registered at 50). -/
def part7 : Participant := mkParticipant 1 7 emptyRegistrationData 50

/-- A participant record for user 8 (subdocument id 2, registered at 60). -/
def part8 : Participant := mkParticipant 2 8 emptyRegistrationData 60

/-- An open event with no participants and deadline 100. -/
def ev0 : Event :=
  { id := 1, organizer := 2, title := "Demo"
    registration :=
      { deadline := 100, maxParticipants := some 10, currentParticipants := 0 }
    participants := [], views := 0 }

/-- The same event with user 7 registered and a consistent counter. -/
def ev1 : Event :=
  { id := 1, organizer := 2, title := "Demo"
    registration :=
      { deadline := 100, maxParticipants := some 10, currentParticipants := 1 }
    participants := [part7], views := 0 }

/-- An event whose counter already exceeds `maxParticipants`. -/
def evFull : Event :=
  { id := 3, organizer := 2, title := "Full"
    registration :=
      { deadline := 100, maxParticipants := some 1, currentParticipants := 5 }
    participants := [], views := 0 }

/-- An event identical to `ev1` except for the participant identities. -/
def ev1Other : Event :=
  { id := 1, organizer := 2, title := "Demo"
    registration :=
      { deadline := 100, maxParticipants := some 10, currentParticipants := 1 }
    participants := [part8], views := 0 }

/-- The authenticated user 7 with an empty mirror list. -/
def u7 : UserRec := { id := 7, role := "user", registeredEvents := [] }

/-- A non-organizer, non-admin viewer. -/
def viewer9 : Viewer := { id := 9, role := "user" }

/-- A note with no ratings yet. -/
def n0 : NoteState := { ratings := [], rating := 0, ratingCount := 0 }

/-- `n0` after ratings 5, 3, 4 by users 1, 2, 3. -/
def n3 : NoteState :=
  recordRating (recordRating (recordRating n0 1 5) 2 3) 3 4

/-! ### Claim theorems -/

/-- C1 (counterexample): the claim says `canUserRegister` allows
registration only when the current time is strictly before the deadline.
At exactly the deadline (now = deadline = 100) the source still allows:
it refuses only when `now > deadline`. -/
theorem canUserRegister_at_deadline_allows :
    (canUserRegister ev0 100 7).canRegister = true ∧
    ¬ (100 < ev0.registration.deadline) := by
  decide

/-- C1 (amended): `canUserRegister` refuses with reason "Registration
deadline has passed" exactly when the current time is strictly after the
deadline — regardless of capacity or prior registration state — and at any
time at or before the deadline the deadline rule never fires (so
registration at exactly the deadline instant is still admitted past that
rule). -/
theorem canUserRegister_deadline_boundary (e : Event) (now : Int) (uid : Nat) :
    (e.registration.deadline < now →
      canUserRegister e now uid
        = ⟨false, some ("Registration deadline has passed")⟩) ∧
    (now ≤ e.registration.deadline →
      (canUserRegister e now uid).reason
        ≠ some ("Registration deadline has passed")) := by
  constructor
  · intro h
    simp [canUserRegister, h]
  · intro h
    have hnl : ¬ e.registration.deadline < now := not_lt.mpr h
    cases hreg : e.participants.any (fun p => p.user == uid) <;>
      simp [canUserRegister, hnl, hreg]

/-- C1 witness: one second after a deadline of 100 the refusal carries the
deadline reason. -/
theorem canUserRegister_deadline_boundary_witness :
    canUserRegister ev0 101 7
      = ⟨false, some ("Registration deadline has passed")⟩ :=
  (canUserRegister_deadline_boundary ev0 101 7).1 (by decide)

/-- C2: starting from a state where the counter equals the participant
count, `registerUser` preserves the equality, `unregisterUser` preserves
it whenever the user occurs exactly once in the list, and any successful
`updateParticipantStatus` keeps both the counter and the list length
unchanged, hence also the equality. -/
theorem registration_counter_invariant (e : Event)
    (h : e.registration.currentParticipants = (e.participants.length : Int)) :
    (∀ uid rd now pid,
       (registerUser e uid rd now pid).registration.currentParticipants
         = ((registerUser e uid rd now pid).participants.length : Int)) ∧
    (∀ uid, e.participants.countP (fun p => p.user == uid) = 1 →
       (unregisterUser e uid).registration.currentParticipants
         = ((unregisterUser e uid).participants.length : Int)) ∧
    (∀ req pid s e₂, updateParticipantStatus e req pid s = Except.ok e₂ →
       e₂.registration.currentParticipants = (e₂.participants.length : Int) ∧
       e₂.participants.length = e.participants.length) := by
  refine ⟨?_, ?_, ?_⟩
  · intro uid rd now pid
    simp [registerUser, h]
  · intro uid hcount
    have hlen := length_filter_user e.participants uid
    rw [hcount] at hlen
    simp only [unregisterUser]
    rw [h]
    have h1 : 1 ≤ e.participants.length := by omega
    have h2 : (e.participants.filter (fun p => !(p.user == uid))).length
        = e.participants.length - 1 := by omega
    rw [h2]
    push_cast [h1]
    omega
  · intro req pid s e₂ hok
    have he := updateParticipantStatus_ok e req pid s e₂ hok
    subst he
    simp [length_setStatusByPid, h]

/-- C2 witness: the invariant is preserved by unregistering user 7 from
`ev1`, whose counter 1 matches its one-element participant list. -/
theorem registration_counter_invariant_witness :
    (unregisterUser ev1 7).registration.currentParticipants
      = ((unregisterUser ev1 7).participants.length : Int) :=
  (registration_counter_invariant ev1 (by decide)).2.1 7 (by decide)

/-- C3: for a viewer who is neither the organizer nor an admin, the
serialized event carries no participants list (`participants = none`) and
exposes `participantCount` equal to the true list length; and two events
that agree on every other field and on the length of their participant
lists — however the identities differ — serialize identically for such a
viewer. -/
theorem present_roster_privacy (e₁ e₂ : Event) (v : Viewer)
    (h1 : ¬ e₁.organizer = v.id) (h2 : ¬ v.role = "admin") :
    (present e₁ (some v)).participants = none ∧
    (present e₁ (some v)).participantCount = some e₁.participants.length ∧
    (e₂.id = e₁.id → e₂.organizer = e₁.organizer → e₂.title = e₁.title →
     e₂.registration = e₁.registration → e₂.views = e₁.views →
     e₂.participants.length = e₁.participants.length →
     present e₂ (some v) = present e₁ (some v)) := by
  have hv1 : (e₁.organizer == v.id) = false := by
    simpa using h1
  have hr : (v.role == "admin") = false := by
    simpa using h2
  refine ⟨?_, ?_, ?_⟩
  · simp [present, hv1, hr]
  · simp [present, hv1, hr]
  · intro hid horg htitle hregis hviews hlen
    have hv2 : (e₂.organizer == v.id) = false := by
      rw [horg]; exact hv1
    simp [present, hv1, hv2, hr, hid, horg, htitle, hregis, hviews, hlen]

/-- C3 witness: `ev1` and `ev1Other` differ only in who the single
participant is, yet viewer 9 receives identical views. -/
theorem present_roster_privacy_witness :
    present ev1Other (some viewer9) = present ev1 (some viewer9) :=
  (present_roster_privacy ev1 ev1Other viewer9 (by decide) (by decide)).2.2
    (by decide) (by decide) (by decide) (by decide) (by decide) (by decide)

/-- C4: `registerUser` appends exactly one participant at the end of the
list (previous entries and their order untouched), with status
"registered", `registeredAt = now`, and the supplied form fields; the
counter is incremented by exactly 1 unconditionally; and at any later
instant before the deadline `canUserRegister` refuses the same user with
reason "Already registered". -/
theorem registerUser_appends_and_blocks_rereg (e : Event) (uid : Nat)
    (rd : RegistrationData) (now : Int) (pid : Nat) :
    (registerUser e uid rd now pid).participants
        = e.participants ++ [mkParticipant pid uid rd now] ∧
    (mkParticipant pid uid rd now).user = uid ∧
    (mkParticipant pid uid rd now).status = "registered" ∧
    (mkParticipant pid uid rd now).registeredAt = now ∧
    (mkParticipant pid uid rd now).phone = rd.phone ∧
    (mkParticipant pid uid rd now).teamName = rd.teamName ∧
    (registerUser e uid rd now pid).registration.currentParticipants
        = e.registration.currentParticipants + 1 ∧
    (∀ t, t < e.registration.deadline →
      canUserRegister (registerUser e uid rd now pid) t uid
        = ⟨false, some ("Already registered")⟩) := by
  refine ⟨rfl, rfl, rfl, rfl, rfl, rfl, rfl, ?_⟩
  intro t ht
  have hnl : ¬ (registerUser e uid rd now pid).registration.deadline < t := by
    simp only [registerUser]
    exact not_lt.mpr (le_of_lt ht)
  have hany : (registerUser e uid rd now pid).participants.any
      (fun p => p.user == uid) = true := by
    simp [registerUser, mkParticipant]
  simp [canUserRegister, hnl, hany]

/-- C4 witness: after registering user 7 on the empty event, a check at
time 60 (before the deadline 100) refuses with "Already registered". -/
theorem registerUser_appends_and_blocks_rereg_witness :
    canUserRegister (registerUser ev0 7 emptyRegistrationData 50 1) 60 7
      = ⟨false, some ("Already registered")⟩ :=
  (registerUser_appends_and_blocks_rereg ev0 7 emptyRegistrationData 50 1).2.2.2.2.2.2.2
    60 (by decide)

/-- C5: the unregister route fails with "not registered" exactly when the
caller does not appear in `participants` (returning an error, so the event
is untouched); when the caller does appear it removes every matching
entry, sets the counter to `max 0 (counter - 1)`, and afterwards
`canUserRegister` never reports "Already registered" for that user at any
instant. -/
theorem unregisterHandler_spec (e : Event) (u : UserRec) :
    (e.participants.any (fun p => p.user == u.id) = false →
      unregisterHandler e u
        = Except.error ("You are not registered for this event")) ∧
    (e.participants.any (fun p => p.user == u.id) = true →
      unregisterHandler e u
        = Except.ok
            (unregisterUser e u.id,
             { u with registeredEvents :=
                 u.registeredEvents.filter (fun r => !(r.event == e.id)) }) ∧
      (unregisterUser e u.id).participants
        = e.participants.filter (fun p => !(p.user == u.id)) ∧
      (unregisterUser e u.id).registration.currentParticipants
        = max 0 (e.registration.currentParticipants - 1) ∧
      (∀ t, (canUserRegister (unregisterUser e u.id) t u.id).reason
          ≠ some ("Already registered"))) := by
  constructor
  · intro hno
    simp [unregisterHandler, hno]
  · intro hyes
    refine ⟨by simp [unregisterHandler, hyes], rfl, rfl, ?_⟩
    intro t
    have hany : (unregisterUser e u.id).participants.any
        (fun p => p.user == u.id) = false := by
      simp only [unregisterUser]
      exact any_user_filter e.participants u.id
    by_cases hd : (unregisterUser e u.id).registration.deadline < t
    · simp [canUserRegister, hd]
    · simp [canUserRegister, hd, hany]

/-- C5 witness: unregistering user 7 from `ev1` succeeds, and a later
check never reports "Already registered". -/
theorem unregisterHandler_spec_witness :
    (canUserRegister (unregisterUser ev1 7) 60 7).reason
      ≠ some ("Already registered") :=
  ((unregisterHandler_spec ev1 u7).2 (by decide)).2.2.2 60

/-- C6: the admin-register route never consults the deadline — with the
target absent from `participants` it succeeds at every instant, in
particular strictly after the deadline — yet still enforces the duplicate
rule (target already present means error "User is already registered for
this event"); on success the mirrored `registeredEvents` entry is pushed
with status "confirmed", whereas the self-service route pushes its mirror
entry with status "registered". -/
theorem adminRegister_skips_deadline_enforces_dup (e : Event) (u : UserRec)
    (now : Int) (pid : Nat) :
    (e.participants.any (fun p => p.user == u.id) = true →
      adminRegisterHandler e u now pid
        = Except.error ("User is already registered for this event")) ∧
    (e.participants.any (fun p => p.user == u.id) = false →
      adminRegisterHandler e u now pid
        = Except.ok
            (registerUser e u.id emptyRegistrationData now pid,
             { u with registeredEvents :=
                 u.registeredEvents ++ [⟨e.id, "confirmed"⟩] })) ∧
    (∀ rd e₂ u₂, registerHandler e u rd now pid = Except.ok (e₂, u₂) →
      u₂.registeredEvents = u.registeredEvents ++ [⟨e.id, "registered"⟩]) := by
  refine ⟨?_, ?_, ?_⟩
  · intro hyes
    simp [adminRegisterHandler, hyes]
  · intro hno
    simp [adminRegisterHandler, hno]
  · intro rd e₂ u₂ hok
    simp only [registerHandler] at hok
    split at hok
    · simp only [Except.ok.injEq, Prod.mk.injEq] at hok
      rw [← hok.2]
    · cases hok

/-- C6 witness: at time 200, past `ev0`'s deadline 100, the admin route
still succeeds for the unregistered user 7. -/
theorem adminRegister_skips_deadline_enforces_dup_witness :
    adminRegisterHandler ev0 u7 200 1
      = Except.ok
          (registerUser ev0 7 emptyRegistrationData 200 1,
           { u7 with registeredEvents := [⟨ev0.id, "confirmed"⟩] }) :=
  (adminRegister_skips_deadline_enforces_dup ev0 u7 200 1).2.1 (by decide)

/-- C7: the participant-status route rejects any status outside
{registered, confirmed, attended, cancelled} with an error (so nothing is
stored); with a valid status and the organizer as requester it fails with
"Participant not found" when no subdocument has the given id; and when one
does, it succeeds for every current status — overwriting the located
subdocument's status with the requested value while every entry with a
different subdocument id is untouched and the list length is preserved. -/
theorem updateParticipantStatus_spec (e : Event) (req pid : Nat)
    (s : String) :
    (s ∉ validStatuses →
      updateParticipantStatus e req pid s
        = Except.error ("Invalid status. Must be one of: registered, confirmed, attended, cancelled")) ∧
    (s ∈ validStatuses → e.organizer = req →
      e.participants.any (fun p => p.pid == pid) = false →
      updateParticipantStatus e req pid s
        = Except.error ("Participant not found")) ∧
    (s ∈ validStatuses → e.organizer = req →
      e.participants.any (fun p => p.pid == pid) = true →
      updateParticipantStatus e req pid s
        = Except.ok { e with participants := setStatusByPid e.participants pid s } ∧
      ((setStatusByPid e.participants pid s).find?
          (fun p => p.pid == pid)).map Participant.status = some s ∧
      (setStatusByPid e.participants pid s).filter (fun p => !(p.pid == pid))
        = e.participants.filter (fun p => !(p.pid == pid)) ∧
      (setStatusByPid e.participants pid s).length
        = e.participants.length) := by
  refine ⟨?_, ?_, ?_⟩
  · intro hs
    have hs' : validStatuses.contains s = false := by
      cases hc : validStatuses.contains s
      · rfl
      · exact absurd (List.mem_of_elem_eq_true hc) hs
    unfold updateParticipantStatus
    rw [hs']
    rfl
  · intro hs horg hnone
    have hs' : validStatuses.contains s = true := List.elem_eq_true_of_mem hs
    have horg' : (e.organizer == req) = true := by simpa using horg
    unfold updateParticipantStatus
    rw [hs', horg', hnone]
    rfl
  · intro hs horg hsome
    have hs' : validStatuses.contains s = true := List.elem_eq_true_of_mem hs
    have horg' : (e.organizer == req) = true := by simpa using horg
    refine ⟨?_, ?_, filter_ne_setStatusByPid e.participants pid s,
      length_setStatusByPid e.participants pid s⟩
    · unfold updateParticipantStatus
      rw [hs', horg', hsome]
      rfl
    · rw [find?_setStatusByPid]
      obtain ⟨p, hp, hpid⟩ := List.any_eq_true.mp hsome
      have hf : (e.participants.find? (fun p => p.pid == pid)).isSome := by
        rw [List.find?_isSome]
        exact ⟨p, hp, hpid⟩
      obtain ⟨q, hq⟩ := Option.isSome_iff_exists.mp hf
      simp [hq]

/-- C7 witness: confirming the one participant of `ev1` (subdocument id 1)
as its organizer 2 stores status "confirmed". -/
theorem updateParticipantStatus_spec_witness :
    updateParticipantStatus ev1 2 1 "confirmed"
      = Except.ok
          { ev1 with
              participants := setStatusByPid ev1.participants 1 "confirmed" } :=
  ((updateParticipantStatus_spec ev1 2 1 "confirmed").2.2
    (by decide) (by decide) (by decide)).1

/-- C8: the rate route keeps at most one rating per user — when the
submitter already has a row the upsert replaces it and, from a consistent
state, `ratingCount` is unchanged; a first-time submitter adds one row —
and after every write the stored aggregate is
`rating = round(mean * 10) / 10` with `ratingCount` the current row count.
Concretely, ratings 5, 3, 4 by three users give rating 4 with count 3, and
user 1 resubmitting 1 keeps count 3 while the average is recomputed over
{1, 3, 4}, giving 2.7. -/
theorem recordRating_spec (n : NoteState) (uid : Nat) (v : Nat) :
    (n.ratingCount = n.ratings.length →
      n.ratings.any (fun r => r.userId == uid) = true →
      (recordRating n uid v).ratingCount = n.ratingCount) ∧
    (n.ratings.any (fun r => r.userId == uid) = false →
      (recordRating n uid v).ratingCount = n.ratings.length + 1) ∧
    (recordRating n uid v).rating
      = (jsRound (avgRating (upsertRating n.ratings uid v) * 10) : ℚ) / 10 ∧
    (recordRating n uid v).ratingCount
      = (upsertRating n.ratings uid v).length ∧
    n3.rating = 4 ∧
    n3.ratingCount = 3 ∧
    (recordRating n3 1 1).ratingCount = 3 ∧
    (recordRating n3 1 1).ratings.map NoteRating.rating = [1, 3, 4] ∧
    (recordRating n3 1 1).rating = 27 / 10 := by
  refine ⟨?_, ?_, rfl, rfl, ?_, by decide, by decide, by decide, ?_⟩
  · intro hwf hyes
    show (upsertRating n.ratings uid v).length = n.ratingCount
    rw [upsertRating, if_pos hyes, List.length_map, hwf]
  · intro hno
    show (upsertRating n.ratings uid v).length = n.ratings.length + 1
    rw [upsertRating, if_neg (by simp [hno]), List.length_append]
    rfl
  · have h : n3.ratings = [⟨1, 5⟩, ⟨2, 3⟩, ⟨3, 4⟩] := by decide
    show (jsRound (avgRating n3.ratings * 10) : ℚ) / 10 = 4
    rw [h, jsRound_eq]
    norm_num [avgRating, sumRatings, List.foldl]
  · have h : (recordRating n3 1 1).ratings = [⟨1, 1⟩, ⟨2, 3⟩, ⟨3, 4⟩] := by
      decide
    show (jsRound (avgRating (recordRating n3 1 1).ratings * 10) : ℚ) / 10
        = 27 / 10
    rw [h, jsRound_eq]
    norm_num [avgRating, sumRatings, List.foldl]

/-- C8 witness: user 1 resubmitting on the three-rating note leaves the
count at its previous value. -/
theorem recordRating_spec_witness :
    (recordRating n3 1 1).ratingCount = n3.ratingCount :=
  (recordRating_spec n3 1 1).1 (by decide) (by decide)

/-- C9: before the deadline, a user absent from `participants` is always
admitted — there is no capacity rule, whatever `maxParticipants` and
`currentParticipants` hold — and the only refusal reasons the check can
produce are the deadline reason and the duplicate reason. -/
theorem canUserRegister_no_capacity_refusal (e : Event) (now : Int)
    (uid : Nat) :
    (now < e.registration.deadline →
      e.participants.any (fun p => p.user == uid) = false →
      canUserRegister e now uid = ⟨true, none⟩) ∧
    ((canUserRegister e now uid).reason = none ∨
     (canUserRegister e now uid).reason
        = some ("Registration deadline has passed") ∨
     (canUserRegister e now uid).reason = some ("Already registered")) := by
  constructor
  · intro hd hany
    have hnl : ¬ e.registration.deadline < now := not_lt.mpr (le_of_lt hd)
    simp [canUserRegister, hnl, hany]
  · by_cases hd : e.registration.deadline < now
    · simp [canUserRegister, hd]
    · cases hany : e.participants.any (fun p => p.user == uid)
      · simp [canUserRegister, hd, hany]
      · simp [canUserRegister, hd, hany]

/-- C9 witness: `evFull` has `currentParticipants = 5` against
`maxParticipants = 1`, yet user 7 is admitted at time 50. -/
theorem canUserRegister_no_capacity_refusal_witness :
    canUserRegister evFull 50 7 = ⟨true, none⟩ :=
  (canUserRegister_no_capacity_refusal evFull 50 7).1 (by decide) (by decide)

/-- C10: a successful admin registration appends an Event-side participant
whose status is "registered" (the shared `registerUser` hard-codes it)
while pushing a User-side mirror entry whose status is "confirmed" — two
statuses that differ, so the two sides disagree until changed by an
organizer. -/
theorem adminRegister_status_mismatch (e : Event) (u : UserRec) (now : Int)
    (pid : Nat)
    (h : e.participants.any (fun p => p.user == u.id) = false) :
    adminRegisterHandler e u now pid
      = Except.ok
          (registerUser e u.id emptyRegistrationData now pid,
           { u with registeredEvents :=
               u.registeredEvents ++ [⟨e.id, "confirmed"⟩] }) ∧
    ((registerUser e u.id emptyRegistrationData now pid).participants.getLast?).map
        Participant.status = some ("registered") ∧
    ((u.registeredEvents
        ++ [({ event := e.id, status := "confirmed" } : RegisteredEvent)]).getLast?).map
        RegisteredEvent.status = some ("confirmed") ∧
    ("registered" : String) ≠ "confirmed" := by
  refine ⟨by simp [adminRegisterHandler, h], ?_, ?_, by decide⟩
  · simp [registerUser, mkParticipant, List.getLast?_concat]
  · simp [List.getLast?_concat]

/-- C10 witness: admin-registering user 7 on `ev0` at time 200 yields an
Event-side status "registered". -/
theorem adminRegister_status_mismatch_witness :
    ((registerUser ev0 7 emptyRegistrationData 200 1).participants.getLast?).map
        Participant.status = some ("registered") :=
  (adminRegister_status_mismatch ev0 u7 200 1 (by decide)).2.1
